import Mathlib

/-!
Shallow embedding of four components of the SimCenterBackendApplications
repository, and proofs settling the frozen claims about them:

* `modules/createSAM/AutoSDA/seismic_design.py` (design-loop control flow,
  strong-column-weak-beam connection-rebuild range),
* `modules/performUQ/UCSD_UQ/calibration_utilities.py` (covariance-file
  processing, default error variances, scale/shift factors, log-likelihood
  evaluation),
* `modules/systemPerformance/REWET/REWET/Output/Result_Time.py` (daily
  crew-report averaging, class construction).

Machine reals are modelled by `ℚ` (the claims under study do not involve
rounding), and the IEEE special values that matter for the log-likelihood
accumulation are modelled explicitly by the `FVal` type.
-/

namespace Spec2Proof

/-! ## Shared helpers: Python `range` and NumPy-style list reductions -/

/-- Python `range(a, b)` as a list: `[a, a+1, ..., b-1]` (empty when `b ≤ a`). -/
def pyRange (a b : ℕ) : List ℕ :=
  List.range' a (b - a)

/-- NumPy `np.max` over a flat list of values: the maximum entry.
(NumPy raises on an empty array; the default `0` is never used by the
theorems below, which only evaluate it on nonempty data.) -/
def npMax (l : List ℚ) : ℚ :=
  l.foldl max (l.headD 0)

/-- The entries of the 2-D slice `data[:, pos : pos + len]`, flattened
row-major, for a matrix given as a list of rows. -/
def sliceEntries (data : List (List ℚ)) (pos len : ℕ) : List ℚ :=
  (data.map fun row => (row.drop pos).take len).flatten

/-- Arithmetic mean of a list (`np.mean` / pandas `mean` on NaN-free data). -/
def listMean (l : List ℚ) : ℚ :=
  l.sum / l.length

/-- Population variance (`np.nanvar` with its default `ddof=0`, on NaN-free
data): mean squared deviation from the mean. -/
def popVar (l : List ℚ) : ℚ :=
  ((l.map fun x => (x - listMean l) ^ 2).sum) / l.length

/-- Column-wise mean of a list of rows (pandas `DataFrame.mean()`). -/
def colMean (rows : List (List ℚ)) : List ℚ :=
  rows.transpose.map listMean

end Spec2Proof

namespace SeismicDesign

/-!
## `seismic_design.py`: the SCWB connection-rebuild story range (C1)

After upscaling a column at story `target_story`, the source rebuilds the
connection objects with

  `for story in range(target_story - 1 >= 0, target_story + 1):`

(`seismic_design.py`, lines 705 and 1299).  The loop start is the boolean
`target_story - 1 >= 0` coerced to an integer, i.e. `1` when
`target_story ≥ 1` and `0` otherwise.  `target_story` is a Python `int`;
the comparison is over ℤ. -/

/-- The stories whose connections are rebuilt after a strong-column-weak-beam
column upscale at `targetStory`, exactly as the source loop enumerates them. -/
def rebuiltConnectionStories (targetStory : ℕ) : List ℕ :=
  Spec2Proof.pyRange (if (targetStory : ℤ) - 1 ≥ 0 then 1 else 0) (targetStory + 1)

/-- The stories the claim says are rebuilt: `max(target_story - 1, 0)`
through `target_story` inclusive.  This definition follows the claim's
words, for comparison with `rebuiltConnectionStories`. -/
def claimedRebuiltConnectionStories (targetStory : ℕ) : List ℕ :=
  Spec2Proof.pyRange (max (targetStory - 1) 0) (targetStory + 1)

/-!
## `seismic_design.py`: termination skeleton (C6)

The only `sys.exit` call in `seismic_design` is the `iteration == 0` check
after the drift-optimization `while` loop (lines 140–143); the two
`sys.exit(1)` occurrences nearby are commented out.  The collaborators
(`Building`, `ElasticAnalysis`, `ElasticOutput`, member classes) live
outside this component; their evolving feasibility answers are abstracted
into an oracle of boolean streams, one stream per revision loop, indexed by
how many loop bodies have executed.  Unbounded `while` loops are run on
fuel; `none` models divergence or exhausted fuel, never process exit. -/

/-- A fueled `while` loop: `cond k` is the loop condition checked before the
`k`-th body execution.  Returns the number of bodies executed, or `none`
when the fuel runs out with the condition still true. -/
def fueledWhile (cond : ℕ → Bool) : ℕ → ℕ → Option ℕ
  | 0, k => if cond k then none else some k
  | fuel + 1, k => if cond k then fueledWhile cond fuel (k + 1) else some k

/-- Oracle for the collaborator-provided data that steers the control flow
of `seismic_design`: the drift-loop condition stream, the members flagged
infeasible by each check phase, and the per-member feasibility streams of
each revision loop (the upscale and re-analysis effects of a loop body are
absorbed into the stream's dependence on the iteration count). -/
structure SDOracle where
  driftOk : ℕ → Bool
  notFeasibleColumns : List (ℕ × ℕ)
  columnFlagOk : ℕ × ℕ → ℕ → Bool
  notFeasibleBeams : List (ℕ × ℕ)
  beamFlagOk : ℕ × ℕ → ℕ → Bool
  notFeasibleConnections : List (ℕ × ℕ)
  geometryLimitsOk : ℕ × ℕ → Bool
  shearFlexuralOk : ℕ × ℕ → ℕ → Bool
  scwbOk : ℕ × ℕ → ℕ → Bool
  notFeasibleConstructionConnections : List (ℕ × ℕ)
  constructionGeometryLimitsOk : ℕ × ℕ → Bool
  constructionShearFlexuralOk : ℕ × ℕ → ℕ → Bool
  constructionScwbOk : ℕ × ℕ → ℕ → Bool

/-- A `sys.exit` event, with the lines written to `sys.stderr` before it. -/
structure SDExit where
  code : ℕ
  stderrLines : List String
  deriving DecidableEq

/-- The two diagnostics written to `sys.stderr` when the drift loop never
ran (lines 141–142). -/
def fatalInitialSizingDiagnostics : List String :=
  ["Initial section size is not strong enough!", "Please increase initial depth!"]

/-- The one `sys.exit` event `seismic_design` can produce: code 99 after the
two diagnostics. -/
def fatalInitialSizingExit : SDExit :=
  { code := 99, stderrLines := fatalInitialSizingDiagnostics }

/-- A strength-revision pass (columns, lines 210–272; beams, lines
310–347): for each flagged member, `while not check_flag(): upscale and
re-analyze`. -/
def revisionPass (items : List (ℕ × ℕ)) (flagOk : ℕ × ℕ → ℕ → Bool)
    (fuel : ℕ) : Option Unit :=
  items.foldl
    (fun acc it => acc.bind fun _ =>
      (fueledWhile (fun k => !(flagOk it k)) fuel 0).map fun _ => ())
    (some ())

/-- A connection-revision pass (lines 460–796 for the optimal design,
1005–1431 for the construction design): per flagged connection, first the
geometry-limits loop — whose body is `pass`, so entering it never
terminates — then the shear/flexural beam-upscale loop, then the SCWB
column-upscale loop. -/
def connectionRevisionPass (items : List (ℕ × ℕ)) (geomOk : ℕ × ℕ → Bool)
    (shearFlexOk scwb : ℕ × ℕ → ℕ → Bool) (fuel : ℕ) : Option Unit :=
  items.foldl
    (fun acc it => acc.bind fun _ =>
      if geomOk it then
        (fueledWhile (fun k => !(shearFlexOk it k)) fuel 0).bind fun _ =>
          (fueledWhile (fun k => !(scwb it k)) fuel 0).map fun _ => ()
      else none)
    (some ())

/-- Everything `seismic_design` does after the fatal-exit check: the
strength, connection, and constructability revision phases and the
persistence of results.  None of it calls `sys.exit`. -/
def postDriftPhases (O : SDOracle) (fuel : ℕ) : Option Unit :=
  (revisionPass O.notFeasibleColumns O.columnFlagOk fuel).bind fun _ =>
    (revisionPass O.notFeasibleBeams O.beamFlagOk fuel).bind fun _ =>
      (connectionRevisionPass O.notFeasibleConnections O.geometryLimitsOk
          O.shearFlexuralOk O.scwbOk fuel).bind fun _ =>
        connectionRevisionPass O.notFeasibleConstructionConnections
          O.constructionGeometryLimitsOk O.constructionShearFlexuralOk
          O.constructionScwbOk fuel

/-- The termination skeleton of `seismic_design`: run the drift-optimization
loop; if it executed zero bodies, write the two diagnostics and
`sys.exit(99)`; otherwise run every later phase to completion (or diverge).
`some (Except.error e)` is process exit `e`; `some (Except.ok ())` is normal
completion; `none` is divergence / exhausted fuel. -/
def seismicDesign (O : SDOracle) (fuel : ℕ) : Option (Except SDExit Unit) :=
  (fueledWhile O.driftOk fuel 0).bind fun iteration =>
    if iteration = 0 then
      some (Except.error fatalInitialSizingExit)
    else
      (postDriftPhases O fuel).map fun _ => Except.ok ()

end SeismicDesign

namespace ResultTime

/-!
## `Result_Time.py`

`Result_Time.__init__` is declared with an empty parameter list (not even
`self`).  Python's instantiation protocol calls `__init__` with the fresh
instance as one positional argument, and binding `n` positional arguments
against a parameter list of different length raises `TypeError`. -/

/-- Python errors relevant to this component. -/
inductive PyError where
  | typeError
  deriving DecidableEq

/-- Number of formal parameters of `Result_Time.__init__` — zero in the
source (`def __init__():`). -/
def resultTimeInitParamCount : ℕ := 0

/-- Binding `argCount` positional arguments to a Python function with
`paramCount` parameters (no defaults, no varargs): succeeds exactly when the
counts agree, otherwise raises `TypeError`. -/
def bindPositional (paramCount argCount : ℕ) : Except PyError Unit :=
  if argCount = paramCount then Except.ok () else Except.error PyError.typeError

/-- The call `Result_Time()`: Python passes the new instance (`self`) as one
positional argument to `__init__`. -/
def instantiateResultTime : Except PyError Unit :=
  bindPositional resultTimeInitParamCount 1

/-- An unbound call `Result_Time.convertTimeSecondToHour(obj, data, column)`
passes explicit arguments for each of the method's 3 required parameters
(`self`, `data`, `column`; `time_shift` has a default). -/
def unboundConvertCallArgBinding : Except PyError Unit :=
  bindPositional 3 3

/-!
### `averageOverDaysCrewTotalReport` (C9)

The crew report is a pandas `DataFrame` indexed by elapsed seconds, embedded
as an association list of `(second, row)` pairs.  `.loc[a : b]` label
slicing is inclusive of both endpoints. -/

/-- The rows of `report` whose index lies in `[lo, hi]`, both endpoints
included — pandas `report.loc[lo : hi]` on a monotone integer index. -/
def rowsBetween (lo hi : ℕ) (report : List (ℕ × List ℚ)) : List (List ℚ) :=
  (report.filter fun r => decide (lo ≤ r.1) && decide (r.1 ≤ hi)).map Prod.snd

/-- Largest index of the report (`crew_report.index.max()`). -/
def maxIndex (report : List (ℕ × List ℚ)) : ℕ :=
  (report.map Prod.fst).foldl max 0

/-- `int(np.ceil(a / b))` for natural `a`, positive natural `b`. -/
def ceilDiv (a b : ℕ) : ℕ :=
  (a + b - 1) / b

/-- `Result_Time.averageOverDaysCrewTotalReport`: bucket the report into
whole-or-partial days (`ceil(max_index / 86400)` of them) and take the
column-wise mean of each day's inclusive `.loc` slice, producing a table
indexed `1..num_days`. -/
def averageOverDaysCrewTotalReport (report : List (ℕ × List ℚ)) :
    List (ℕ × List ℚ) :=
  let timeMaxDays := ceilDiv (maxIndex report) (24 * 3600)
  (List.range timeMaxDays).map fun day =>
    (day + 1,
      Spec2Proof.colMean (rowsBetween (day * 24 * 3600) ((day + 1) * 24 * 3600) report))

end ResultTime

namespace CalibrationUtilities

/-!
## `calibration_utilities.py`
-/

/-- Python exceptions raised by this component: `shutil.SameFileError`
(a subclass of the copy errors) and the module's own `DataProcessingError`. -/
inductive PyExn where
  | sameFileError
  | dataProcessingError
  deriving DecidableEq

/-- POSIX `os.path.join(a, b)` for a relative second component. -/
def pathJoin (a b : String) : String :=
  if a.endsWith "/" then a ++ b else a ++ "/" ++ b

/-- `shutil.copyfile(src, dst)`: raises `SameFileError` when `src` and `dst`
specify the same file — in particular when they are the same path. -/
def copyfile (src dst : String) : Except PyExn Unit :=
  if src = dst then Except.error PyExn.sameFileError else Except.ok ()

/-- How `createCovarianceMatrix` sourced one (experiment, EDP) covariance. -/
inductive CovFileStep where
  | usedDefault
  | parsedUserFile
  deriving DecidableEq

/-- The per-(experiment, EDP) file-handling prefix of
`CovarianceMatrixPreparer.createCovarianceMatrix` (lines 110–127): the file
`{edpName}.{expNum}.sigma` is looked up in `workdirMain`; if present and
`runType == 'runningLocal'`, it is copied with `shutil.copyfile` from
`os.path.join(workdirMain, covarianceFileName)` to
`os.path.join(workdirMain, covarianceFileName)` — the same path — before
parsing; if absent, the default variance is used. -/
def covarianceFileStep (runType workdirMain covarianceFileName : String)
    (fileExists : Bool) : Except PyExn CovFileStep :=
  if fileExists then
    if runType = "runningLocal" then
      match copyfile (pathJoin workdirMain covarianceFileName)
          (pathJoin workdirMain covarianceFileName) with
      | Except.error e => Except.error e
      | Except.ok _ => Except.ok CovFileStep.parsedUserFile
    else Except.ok CovFileStep.parsedUserFile
  else Except.ok CovFileStep.usedDefault

/-- The fallback value `1e-12` that `getDefaultErrorVariances` initializes
every entry with. -/
def initialVariance : ℚ := 1 / 10 ^ 12

/-- Multi-experiment branch of `getDefaultErrorVariances` (lines 71–82):
for each EDP, the entry is overwritten with `np.nanvar` of the data slice
when that variance is nonzero, else it keeps the `1e-12` initialization.
The source initializes an array of `1e-12` and overwrites entry `i` inside
the loop; building each entry with the same conditional is equivalent. -/
def defaultVariancesMulti (data : List (List ℚ)) : List ℕ → ℕ → List ℚ
  | [], _ => []
  | l :: ls, pos =>
    let v := Spec2Proof.popVar (Spec2Proof.sliceEntries data pos l)
    (if v ≠ 0 then v else initialVariance) :: defaultVariancesMulti data ls (pos + l)

/-- Single-experiment branch of `getDefaultErrorVariances` (lines 83–92):
`v = np.max(np.absolute(dataSlice))`, entry `(0.05 * v) ** 2` when `v ≠ 0`. -/
def defaultVariancesSingle (data : List (List ℚ)) : List ℕ → ℕ → List ℚ
  | [], _ => []
  | l :: ls, pos =>
    let v := Spec2Proof.npMax ((Spec2Proof.sliceEntries data pos l).map fun x => |x|)
    (if v ≠ 0 then (0.05 * v) ^ 2 else initialVariance)
      :: defaultVariancesSingle data ls (pos + l)

/-- `CovarianceMatrixPreparer.getDefaultErrorVariances`: branch on
`np.shape(calibrationData)[0] > 1`. -/
def getDefaultErrorVariances (data : List (List ℚ)) (edpLengths : List ℕ) :
    List ℚ :=
  if 1 < data.length then defaultVariancesMulti data edpLengths 0
  else defaultVariancesSingle data edpLengths 0

/-- Shape tags assigned by `createCovarianceMatrix` to a user covariance
file. -/
inductive CovShapeTag where
  | scalar
  | diagonal
  | matrix
  deriving DecidableEq

/-- The shape classification of `createCovarianceMatrix` (lines 172–221),
applied to the cleaned file's row count, column count, and the EDP's
declared length: nested `if numRows == 1 / elif numRows == edpLength`
branches, with `DataProcessingError` on every other shape. -/
def classifyCovarianceShape (numRows numCols edpLength : ℕ) :
    Except PyExn CovShapeTag :=
  if numRows = 1 then
    if numCols = 1 then Except.ok CovShapeTag.scalar
    else if numCols = edpLength then Except.ok CovShapeTag.diagonal
    else Except.error PyExn.dataProcessingError
  else if numRows = edpLength then
    if numCols = 1 then Except.ok CovShapeTag.diagonal
    else if numCols = edpLength then Except.ok CovShapeTag.matrix
    else Except.error PyExn.dataProcessingError
  else Except.error PyExn.dataProcessingError

/-- The `absMaxScaling` branch of
`DataTransformer.computeScaleAndShiftFactors` (lines 391–411), threading the
mutable `locShift` (initialized `0.0` once, before the loop) and the running
`currentPosition` through the per-EDP loop.  Note the source computes
`absMax = np.absolute(np.max(slice))` — the absolute value of the maximum
entry.  Returns `(scaleFactors, shiftFactors)`. -/
def absMaxScaleShift (data : List (List ℚ)) : List ℕ → ℕ → ℚ → List ℚ × List ℚ
  | [], _, _ => ([], [])
  | l :: ls, pos, locShift =>
    let absMax := |Spec2Proof.npMax (Spec2Proof.sliceEntries data pos l)|
    let locShift' := if absMax = 0 then 1 else locShift
    let absMax' := if absMax = 0 then 1 else absMax
    let rest := absMaxScaleShift data ls (pos + l) locShift'
    (absMax' :: rest.1, locShift' :: rest.2)

/-- `computeScaleAndShiftFactors` with strategy `'absMaxScaling'`:
`currentPosition = 0`, `locShift = 0.0`. -/
def computeScaleAndShiftFactors (data : List (List ℚ)) (edpLengths : List ℕ) :
    List ℚ × List ℚ :=
  absMaxScaleShift data edpLengths 0 0

end CalibrationUtilities

namespace LogLikelihood

/-!
## `LogLikelihoodHandler`

`_loop_for_log_likelihood` accumulates Python floats; the loaded
`log_likelihood` function may return any double, including `inf`, `-inf`
and `NaN`.  Finite doubles are modelled by `ℚ` (no rounding occurs in the
accumulation logic under study) and the special values explicitly. -/

/-- A double value as relevant to the accumulation: `NaN`, `±inf`, or a
finite value. -/
inductive FVal where
  | nan
  | inf
  | ninf
  | fin (q : ℚ)
  deriving DecidableEq

/-- IEEE-754 addition restricted to these values: `NaN` propagates,
`inf + (-inf)` is `NaN`, an infinity absorbs finite values. -/
def ieeeAdd : FVal → FVal → FVal
  | FVal.nan, _ => FVal.nan
  | _, FVal.nan => FVal.nan
  | FVal.inf, FVal.ninf => FVal.nan
  | FVal.ninf, FVal.inf => FVal.nan
  | FVal.inf, _ => FVal.inf
  | _, FVal.inf => FVal.inf
  | FVal.ninf, _ => FVal.ninf
  | _, FVal.ninf => FVal.ninf
  | FVal.fin a, FVal.fin b => FVal.fin (a + b)

/-- `np.isnan`. -/
def isnan : FVal → Bool
  | FVal.nan => true
  | _ => false

/-- `transform_data_function` applied to one row (lines 341–359): per data
segment `j`, the column slice becomes `(x + shift_j) / scale_j`; the source
threads `currentPosition`, realized here by consuming the row
segment-by-segment.  (On factor lists shorter than the segment list Python
would raise `IndexError`; the remaining row is returned unchanged instead,
and every theorem below stays within bounds.) -/
def transformRow : List ℕ → List ℚ → List ℚ → List ℚ → List ℚ
  | [], _, _, row => row
  | _ :: _, [], _, row => row
  | _ :: _, _ :: _, [], row => row
  | l :: ls, s :: ss, sh :: shs, row =>
      ((row.take l).map fun x => (x + sh) / s) ++ transformRow ls ss shs (row.drop l)

/-- `transform_data_function` on a 2-D array: every row is transformed with
the same per-segment factors. -/
def transform_data_function (data : List (List ℚ)) (lens : List ℕ)
    (scales shifts : List ℚ) : List (List ℚ) :=
  data.map (transformRow lens scales shifts)

/-- Elementwise matrix subtraction (`transformed_prediction - self.data`). -/
def matSub (a b : List (List ℚ)) : List (List ℚ) :=
  List.zipWith (fun ra rb => List.zipWith (fun x y => x - y) ra rb) a b

/-- Scalar multiple of a matrix (`cov_multiplier * np.atleast_2d(block)`;
the blocks are stored here as 2-D lists, so `atleast_2d` is the
identity). -/
def matScale (c : ℚ) (m : List (List ℚ)) : List (List ℚ) :=
  m.map (List.map fun x => c * x)

/-- The state a `LogLikelihoodHandler` carries into
`evaluate_log_likelihood`. -/
structure Handler where
  data : List (List ℚ)
  covarianceMatrixList : List (List (List ℚ))
  listOfDataSegmentLengths : List ℕ
  listOfScaleFactors : List ℚ
  listOfShiftFactors : List ℚ
  deriving DecidableEq

/-- `_get_num_experiments`: `np.shape(self.data)[0]`. -/
def numExperiments (H : Handler) : ℕ := H.data.length

/-- `_get_num_response_quantities`. -/
def numResponseQuantities (H : Handler) : ℕ := H.listOfDataSegmentLengths.length

/-- `_make_mean(j)`: a zero vector of the `j`-th segment length. -/
def makeMean (H : Handler) (j : ℕ) : List ℚ :=
  List.replicate (H.listOfDataSegmentLengths.getD j 0) 0

/-- `_make_covariance(j, cov_multiplier)`. -/
def makeCovariance (H : Handler) (j : ℕ) (covMultiplier : ℚ) : List (List ℚ) :=
  matScale covMultiplier (H.covarianceMatrixList.getD j [])

/-- The arguments of one invocation of the loaded `log_likelihood`
function. -/
structure LLCall where
  residuals : List ℚ
  mean : List ℚ
  cov : List (List ℚ)
  deriving DecidableEq

/-- The calls `_loop_for_log_likelihood` makes, grouped by experiment `i`
and, within an experiment, by response quantity `j` (lines 674–692): the
residual segment `allResiduals[i, cur : cur + length]` — `cur` being the sum
of the previous segment lengths — the zero mean, and the multiplier-scaled
covariance block.  (Python list indexing raises `IndexError` out of bounds;
`getD` pads instead, and every theorem below stays within bounds.) -/
def llCallsByExp (H : Handler) (prediction : List (List ℚ))
    (multipliers : List ℚ) : List (List LLCall) :=
  let transformed := transform_data_function prediction
    H.listOfDataSegmentLengths H.listOfScaleFactors H.listOfShiftFactors
  let allResiduals := matSub transformed H.data
  (List.range (numExperiments H)).map fun i =>
    (List.range (numResponseQuantities H)).map fun j =>
      { residuals :=
          ((allResiduals.getD i []).drop
            ((H.listOfDataSegmentLengths.take j).sum)).take
            (H.listOfDataSegmentLengths.getD j 0)
        mean := makeMean H j
        cov := makeCovariance H j (multipliers.getD j 0) }

/-- `_loop_for_log_likelihood`: starting from `loglike = 0`, add each call's
result, substituting `-inf` for a `NaN` result (the source's
`if not np.isnan(ll): loglike += ll else: loglike += -np.inf`). -/
def loopForLogLikelihood (H : Handler) (prediction : List (List ℚ))
    (multipliers : List ℚ)
    (logLikelihoodFn : List ℚ → List ℚ → List (List ℚ) → FVal) : FVal :=
  ((llCallsByExp H prediction multipliers).flatten).foldl
    (fun loglike c =>
      let ll := logLikelihoodFn c.residuals c.mean c.cov
      ieeeAdd loglike (if isnan ll then FVal.ninf else ll))
    (FVal.fin 0)

/-- `evaluate_log_likelihood` delegates to `_loop_for_log_likelihood`. -/
def evaluate_log_likelihood (H : Handler) (prediction : List (List ℚ))
    (multipliers : List ℚ)
    (logLikelihoodFn : List ℚ → List ℚ → List (List ℚ) → FVal) : FVal :=
  loopForLogLikelihood H prediction multipliers logLikelihoodFn

/-- The covariance matrix passed to the loaded `log_likelihood` function for
experiment `i`, response quantity `j`. -/
def covPassed (H : Handler) (prediction : List (List ℚ))
    (multipliers : List ℚ) (i j : ℕ) : List (List ℚ) :=
  (((llCallsByExp H prediction multipliers).getD i []).getD j
    { residuals := [], mean := [], cov := [] }).cov

end LogLikelihood

/-! ### C1: theorems -/

/-- **C1**.  The claim says that after a strong-column-weak-beam column
upscale at story `target_story`, exactly the connections at stories
`max(target_story - 1, 0) .. target_story` are rebuilt.  The source loop
`range(target_story - 1 >= 0, target_story + 1)` instead starts at the
boolean coerced to `0`/`1`: at `target_story = 3` it rebuilds stories
`[1, 2, 3]` where the claim requires `[2, 3]`, and at `target_story = 1` it
rebuilds only `[1]` where the claim requires `[0, 1]`. -/
theorem C1_rebuild_range_bug :
    SeismicDesign.rebuiltConnectionStories 3 = [1, 2, 3] ∧
      SeismicDesign.claimedRebuiltConnectionStories 3 = [2, 3] ∧
      SeismicDesign.rebuiltConnectionStories 1 = [1] ∧
      SeismicDesign.claimedRebuiltConnectionStories 1 = [0, 1] := by
  refine ⟨?_, ?_, ?_, ?_⟩ <;> rfl

/-! ### C2: theorem -/

/-- **C2**.  The claim says that with `runType = 'runningLocal'` and an
existing user file `{edpName}.{expNum}.sigma` in the working directory,
`createCovarianceMatrix` copies the file and proceeds to parse it without
raising.  In the source, the copy source and destination are the identical
path `os.path.join(workdirMain, covarianceFileName)`, so `shutil.copyfile`
raises `SameFileError` before parsing is ever reached — for every working
directory and file name. -/
theorem C2_local_copy_always_raises (workdirMain covarianceFileName : String) :
    CalibrationUtilities.covarianceFileStep "runningLocal" workdirMain
        covarianceFileName true =
      Except.error CalibrationUtilities.PyExn.sameFileError := by
  simp [CalibrationUtilities.covarianceFileStep, CalibrationUtilities.copyfile]

/-! ### C3: theorem -/

/-- **C3**.  The claim says `absMaxScaling` yields, per EDP segment, shift 0
and scale equal to the maximum absolute entry of the segment (shift 1, scale
1 when that maximum is 0).  The code instead computes `abs(max(slice))`:
on the all-negative segment `[-2, -1]` it returns scale `1` where the
maximum absolute entry is `2`; and its `locShift` flag persists across
segments: on data `[[0, 5]]` with segment lengths `[1, 1]` the second
segment gets shift `1` (claim: `0`) because the first segment tripped the
flag. -/
theorem C3_abs_max_scaling_bug :
    CalibrationUtilities.computeScaleAndShiftFactors [[-2, -1]] [2] = ([1], [0]) ∧
      Spec2Proof.npMax ((Spec2Proof.sliceEntries [[-2, -1]] 0 2).map fun x => |x|) = 2 ∧
      CalibrationUtilities.computeScaleAndShiftFactors [[0, 5]] [1, 1] =
        ([1, 5], [1, 1]) := by
  refine ⟨?_, ?_, ?_⟩ <;> decide

/-! ### C4: theorem and witness -/

/-- `getD` of a mapped `range`: the `i`-th element is `f i` in bounds. -/
theorem getD_range_map {α : Type} (f : ℕ → α) (n i : ℕ) (d : α) (h : i < n) :
    ((List.range n).map f).getD i d = f i := by
  rw [List.getD_eq_getElem?_getD, List.getElem?_map, List.getElem?_range h]
  rfl

/-- **C4**.  In `evaluate_log_likelihood`, the covariance passed for
experiment `i`, response quantity `j` is the `j`-th covariance block scaled
by the `j`-th multiplier, and so does not depend on `i`: any two experiments
receive the same covariance for the same response quantity. -/
theorem C4_covariance_independent_of_experiment (H : LogLikelihood.Handler)
    (prediction : List (List ℚ)) (multipliers : List ℚ) (i i' j : ℕ)
    (hi : i < LogLikelihood.numExperiments H)
    (hi' : i' < LogLikelihood.numExperiments H)
    (hj : j < LogLikelihood.numResponseQuantities H) :
    LogLikelihood.covPassed H prediction multipliers i j =
        LogLikelihood.covPassed H prediction multipliers i' j ∧
      LogLikelihood.covPassed H prediction multipliers i j =
        LogLikelihood.makeCovariance H j (multipliers.getD j 0) := by
  have expand : ∀ k, k < LogLikelihood.numExperiments H →
      LogLikelihood.covPassed H prediction multipliers k j =
        LogLikelihood.makeCovariance H j (multipliers.getD j 0) := by
    intro k hk
    unfold LogLikelihood.covPassed LogLikelihood.llCallsByExp
    rw [getD_range_map _ _ _ _ hk, getD_range_map _ _ _ _ hj]
  exact ⟨(expand i hi).trans (expand i' hi').symm, expand i hi⟩

/-- Witness for C4: two experiments, two response quantities. -/
theorem C4_covariance_independent_of_experiment_witness :
    LogLikelihood.covPassed
        { data := [[0, 0], [1, 1]], covarianceMatrixList := [[[1]], [[2]]],
          listOfDataSegmentLengths := [1, 1], listOfScaleFactors := [1, 1],
          listOfShiftFactors := [0, 0] } [[2, 3], [4, 5]] [3, 7] 0 1 =
      LogLikelihood.covPassed
        { data := [[0, 0], [1, 1]], covarianceMatrixList := [[[1]], [[2]]],
          listOfDataSegmentLengths := [1, 1], listOfScaleFactors := [1, 1],
          listOfShiftFactors := [0, 0] } [[2, 3], [4, 5]] [3, 7] 1 1 :=
  (C4_covariance_independent_of_experiment
    { data := [[0, 0], [1, 1]], covarianceMatrixList := [[[1]], [[2]]],
      listOfDataSegmentLengths := [1, 1], listOfScaleFactors := [1, 1],
      listOfShiftFactors := [0, 0] } [[2, 3], [4, 5]] [3, 7] 0 1 1
    (by decide) (by decide) (by decide)).1

/-! ### C5: counterexample, amended theorem and witness -/

/-- Concrete handler for the C5 analysis: one experiment, two response
quantities of lengths 1 and 2. -/
def c5Handler : LogLikelihood.Handler :=
  { data := [[0, 0, 0]], covarianceMatrixList := [[[1]], [[1, 0], [0, 1]]],
    listOfDataSegmentLengths := [1, 2], listOfScaleFactors := [1, 1],
    listOfShiftFactors := [0, 0] }

/-- A loaded log-likelihood function returning `+inf` on the first response
quantity (recognized by its length-1 zero mean) and `NaN` on the second. -/
def c5LogLikelihoodFn (_ mean : List ℚ) (_ : List (List ℚ)) :
    LogLikelihood.FVal :=
  if mean = [0] then LogLikelihood.FVal.inf else LogLikelihood.FVal.nan

/-- **C5, counterexample**.  A per-call result of `NaN` does not force the
total to `-inf`: with one call returning `+inf` and the next `NaN`, the
accumulation is `0 + inf = inf`, then `inf + (-inf) = NaN`, so
`evaluate_log_likelihood` returns `NaN`, not `-inf`. -/
theorem C5_counterexample :
    ((LogLikelihood.llCallsByExp c5Handler [[0, 0, 0]] [1, 1]).flatten.map
        (fun c => c5LogLikelihoodFn c.residuals c.mean c.cov)).any
        LogLikelihood.isnan = true ∧
      LogLikelihood.evaluate_log_likelihood c5Handler [[0, 0, 0]] [1, 1]
          c5LogLikelihoodFn = LogLikelihood.FVal.nan ∧
      LogLikelihood.FVal.nan ≠ LogLikelihood.FVal.ninf := by
  refine ⟨?_, ?_, ?_⟩ <;> decide

/-- Accumulating values none of which is `+inf` or `NaN` yields `-inf` as
soon as the accumulator is `-inf` or some later value is `-inf`. -/
theorem foldl_ieeeAdd_eq_ninf :
    ∀ l : List LogLikelihood.FVal,
      (∀ x ∈ l, x ≠ LogLikelihood.FVal.inf ∧ x ≠ LogLikelihood.FVal.nan) →
      ∀ a : LogLikelihood.FVal,
        a ≠ LogLikelihood.FVal.inf → a ≠ LogLikelihood.FVal.nan →
        (a = LogLikelihood.FVal.ninf ∨ ∃ x ∈ l, x = LogLikelihood.FVal.ninf) →
        l.foldl LogLikelihood.ieeeAdd a = LogLikelihood.FVal.ninf
  | [], _, a, _, _, h => by
      rcases h with h | ⟨x, hx, _⟩
      · simpa using h
      · simp at hx
  | x :: xs, hl, a, hai, han, h => by
      have hx := hl x (List.mem_cons_self x xs)
      have hxs : ∀ y ∈ xs, y ≠ LogLikelihood.FVal.inf ∧ y ≠ LogLikelihood.FVal.nan :=
        fun y hy => hl y (List.mem_cons_of_mem x hy)
      rw [List.foldl_cons]
      rcases a with _ | _ | _ | qa
      · exact absurd rfl han
      · exact absurd rfl hai
      · -- accumulator is already -inf; adding a tame value keeps it -inf
        rcases x with _ | _ | _ | qx
        · exact absurd rfl hx.2
        · exact absurd rfl hx.1
        · exact foldl_ieeeAdd_eq_ninf xs hxs _ (by simp [LogLikelihood.ieeeAdd])
            (by simp [LogLikelihood.ieeeAdd]) (Or.inl rfl)
        · exact foldl_ieeeAdd_eq_ninf xs hxs _ (by simp [LogLikelihood.ieeeAdd])
            (by simp [LogLikelihood.ieeeAdd]) (Or.inl rfl)
      · -- accumulator is finite
        rcases x with _ | _ | _ | qx
        · exact absurd rfl hx.2
        · exact absurd rfl hx.1
        · exact foldl_ieeeAdd_eq_ninf xs hxs _ (by simp [LogLikelihood.ieeeAdd])
            (by simp [LogLikelihood.ieeeAdd]) (Or.inl rfl)
        · rcases h with h | ⟨y, hy, hyv⟩
          · exact absurd h (by simp)
          · rcases List.mem_cons.mp hy with hy0 | hytail
            · rw [hy0] at hyv; exact absurd hyv (by simp)
            · exact foldl_ieeeAdd_eq_ninf xs hxs _ (by simp [LogLikelihood.ieeeAdd])
                (by simp [LogLikelihood.ieeeAdd]) (Or.inr ⟨y, hytail, hyv⟩)

/-- **C5, amended**.  If some per-experiment, per-response-quantity call of
the loaded log-likelihood function returns `NaN`, and no call returns
`+inf`, then `evaluate_log_likelihood` returns `-inf`. -/
theorem C5_nan_forces_ninf (H : LogLikelihood.Handler)
    (prediction : List (List ℚ)) (multipliers : List ℚ)
    (logLikelihoodFn : List ℚ → List ℚ → List (List ℚ) → LogLikelihood.FVal)
    (hnan : ∃ c ∈ (LogLikelihood.llCallsByExp H prediction multipliers).flatten,
      LogLikelihood.isnan (logLikelihoodFn c.residuals c.mean c.cov) = true)
    (hinf : ∀ c ∈ (LogLikelihood.llCallsByExp H prediction multipliers).flatten,
      logLikelihoodFn c.residuals c.mean c.cov ≠ LogLikelihood.FVal.inf) :
    LogLikelihood.evaluate_log_likelihood H prediction multipliers
        logLikelihoodFn = LogLikelihood.FVal.ninf := by
  unfold LogLikelihood.evaluate_log_likelihood LogLikelihood.loopForLogLikelihood
  refine Eq.trans
    (List.foldl_map
      (fun c =>
        if LogLikelihood.isnan (logLikelihoodFn c.residuals c.mean c.cov) then
          LogLikelihood.FVal.ninf
        else logLikelihoodFn c.residuals c.mean c.cov)
      LogLikelihood.ieeeAdd
      ((LogLikelihood.llCallsByExp H prediction multipliers).flatten)
      (LogLikelihood.FVal.fin 0)).symm ?_
  apply foldl_ieeeAdd_eq_ninf
  · intro y hy
    rcases List.mem_map.mp hy with ⟨c, hc, hcy⟩
    by_cases hn : LogLikelihood.isnan (logLikelihoodFn c.residuals c.mean c.cov) = true
    · rw [← hcy]
      simp [hn]
    · have hnf : LogLikelihood.isnan (logLikelihoodFn c.residuals c.mean c.cov) = false := by
        simpa using hn
      have hne : logLikelihoodFn c.residuals c.mean c.cov ≠ LogLikelihood.FVal.nan := by
        intro hEq
        rw [hEq] at hnf
        simp [LogLikelihood.isnan] at hnf
      rw [← hcy]
      simp only [hnf, Bool.false_eq_true, if_false]
      exact ⟨hinf c hc, hne⟩
  · simp
  · simp
  · rcases hnan with ⟨c, hc, hcnan⟩
    exact Or.inr ⟨_, List.mem_map_of_mem _ hc, by simp [hcnan]⟩

/-- A loaded log-likelihood function returning a finite value on the first
response quantity (recognized by its length-1 zero mean) and `NaN` on the
second. -/
def c5TameLogLikelihoodFn (_ mean : List ℚ) (_ : List (List ℚ)) :
    LogLikelihood.FVal :=
  if mean = [0] then LogLikelihood.FVal.fin 1 else LogLikelihood.FVal.nan

/-- Witness for the amended C5: a `NaN` call with no `+inf` call yields
`-inf`. -/
theorem C5_nan_forces_ninf_witness :
    LogLikelihood.evaluate_log_likelihood c5Handler [[0, 0, 0]] [1, 1]
        c5TameLogLikelihoodFn = LogLikelihood.FVal.ninf :=
  C5_nan_forces_ninf c5Handler [[0, 0, 0]] [1, 1] c5TameLogLikelihoodFn
    (by decide) (by decide)

/-! ### C6: theorem and witness -/

/-- A fueled `while` loop that reports `some j` entered at counter `k`
executed at least `k` bodies. -/
theorem fueledWhile_le (cond : ℕ → Bool) :
    ∀ (fuel k j : ℕ), SeismicDesign.fueledWhile cond fuel k = some j → k ≤ j := by
  intro fuel
  induction fuel with
  | zero =>
    intro k j h
    by_cases hc : cond k = true <;> simp [SeismicDesign.fueledWhile, hc] at h
    omega
  | succ fuel ih =>
    intro k j h
    by_cases hc : cond k = true
    · simp only [SeismicDesign.fueledWhile, hc, if_true] at h
      have := ih (k + 1) j h
      omega
    · simp [SeismicDesign.fueledWhile, hc] at h
      omega

/-- The drift loop executes zero bodies exactly when its condition fails at
the very first check. -/
theorem fueledWhile_zero_iff (cond : ℕ → Bool) (fuel : ℕ) :
    SeismicDesign.fueledWhile cond fuel 0 = some 0 ↔ cond 0 = false := by
  constructor
  · intro h
    by_cases hc : cond 0 = true
    · cases fuel with
      | zero => simp [SeismicDesign.fueledWhile, hc] at h
      | succ fuel =>
        simp only [SeismicDesign.fueledWhile, hc, if_true] at h
        have := fueledWhile_le cond fuel 1 0 h
        omega
    · simpa using hc
  · intro h
    cases fuel with
    | zero => simp [SeismicDesign.fueledWhile, h]
    | succ fuel => simp [SeismicDesign.fueledWhile, h]

/-- Inversion: the skeleton terminates the process only through the fatal
initial-sizing exit, and only when the drift loop never ran. -/
theorem seismicDesign_error_inversion (O : SeismicDesign.SDOracle) (fuel : ℕ)
    (e : SeismicDesign.SDExit)
    (he : SeismicDesign.seismicDesign O fuel = some (Except.error e)) :
    e = SeismicDesign.fatalInitialSizingExit ∧ O.driftOk 0 = false := by
  unfold SeismicDesign.seismicDesign at he
  rcases hW : SeismicDesign.fueledWhile O.driftOk fuel 0 with _ | it
  · simp [hW] at he
  · rw [hW, Option.some_bind] at he
    by_cases hit : it = 0
    · subst hit
      rw [if_pos rfl] at he
      have hb : O.driftOk 0 = false := (fueledWhile_zero_iff O.driftOk fuel).mp hW
      simp only [Option.some.injEq, Except.error.injEq] at he
      exact ⟨he.symm, hb⟩
    · rw [if_neg hit] at he
      rcases hP : SeismicDesign.postDriftPhases O fuel with _ | u
      · rw [hP] at he
        simp at he
      · rw [hP] at he
        simp at he

/-- **C6**.  In the skeleton of `seismic_design`, a zero-iteration drift
loop (the drift inequality fails at the very first check) is equivalent to
the process exiting with code 99 after the two stderr diagnostics; at least
one diagnostic line is written; and *every* process exit the function can
produce is that one — there is no other exit-terminating condition. -/
theorem C6_zero_iteration_fatal_exit (O : SeismicDesign.SDOracle) (fuel : ℕ) :
    (SeismicDesign.seismicDesign O fuel =
        some (Except.error SeismicDesign.fatalInitialSizingExit) ↔
      O.driftOk 0 = false) ∧
      1 ≤ SeismicDesign.fatalInitialSizingExit.stderrLines.length ∧
      SeismicDesign.fatalInitialSizingExit.code = 99 ∧
      ∀ e, SeismicDesign.seismicDesign O fuel = some (Except.error e) →
        e = SeismicDesign.fatalInitialSizingExit ∧ O.driftOk 0 = false := by
  refine ⟨⟨fun h => (seismicDesign_error_inversion O fuel _ h).2, fun h => ?_⟩,
    by decide, rfl, fun e he => seismicDesign_error_inversion O fuel e he⟩
  have h0 : SeismicDesign.fueledWhile O.driftOk fuel 0 = some 0 :=
    (fueledWhile_zero_iff O.driftOk fuel).mpr h
  unfold SeismicDesign.seismicDesign
  rw [h0, Option.some_bind, if_pos rfl]

/-- Oracle for the C6 witness: the drift condition fails immediately and no
member is flagged infeasible. -/
def c6Oracle : SeismicDesign.SDOracle :=
  { driftOk := fun _ => false
    notFeasibleColumns := []
    columnFlagOk := fun _ _ => true
    notFeasibleBeams := []
    beamFlagOk := fun _ _ => true
    notFeasibleConnections := []
    geometryLimitsOk := fun _ => true
    shearFlexuralOk := fun _ _ => true
    scwbOk := fun _ _ => true
    notFeasibleConstructionConnections := []
    constructionGeometryLimitsOk := fun _ => true
    constructionShearFlexuralOk := fun _ _ => true
    constructionScwbOk := fun _ _ => true }

/-- Witness for C6: with the drift condition failing at the first check,
the process exits with code 99 after the diagnostics. -/
theorem C6_zero_iteration_fatal_exit_witness :
    SeismicDesign.seismicDesign c6Oracle 1 =
        some (Except.error SeismicDesign.fatalInitialSizingExit) ∧
      1 ≤ SeismicDesign.fatalInitialSizingExit.stderrLines.length :=
  ⟨(C6_zero_iteration_fatal_exit c6Oracle 1).1.mpr rfl,
    (C6_zero_iteration_fatal_exit c6Oracle 1).2.1⟩

/-! ### C7: theorem and witness -/

/-- Closed form of the multi-experiment recursion of
`getDefaultErrorVariances`: entry `i` is governed by the slice starting at
`pos` plus the lengths consumed before `i`. -/
theorem defaultVariancesMulti_getD (data : List (List ℚ)) :
    ∀ (lens : List ℕ) (pos i : ℕ), i < lens.length →
      (CalibrationUtilities.defaultVariancesMulti data lens pos).getD i 0 =
        (if Spec2Proof.popVar
              (Spec2Proof.sliceEntries data (pos + (lens.take i).sum) (lens.getD i 0)) ≠ 0
         then Spec2Proof.popVar
              (Spec2Proof.sliceEntries data (pos + (lens.take i).sum) (lens.getD i 0))
         else CalibrationUtilities.initialVariance)
  | [], _, i, hi => by simp at hi
  | l :: ls, pos, 0, _ => by
      simp [CalibrationUtilities.defaultVariancesMulti]
  | l :: ls, pos, i + 1, hi => by
      have ih := defaultVariancesMulti_getD data ls (pos + l) i
        (by simpa using Nat.lt_of_succ_lt_succ hi)
      simp only [CalibrationUtilities.defaultVariancesMulti, List.getD_cons_succ,
        List.take_succ_cons, List.sum_cons, List.getD_cons_succ] at ih ⊢
      rw [ih, Nat.add_assoc]

/-- Closed form of the single-experiment recursion of
`getDefaultErrorVariances`. -/
theorem defaultVariancesSingle_getD (data : List (List ℚ)) :
    ∀ (lens : List ℕ) (pos i : ℕ), i < lens.length →
      (CalibrationUtilities.defaultVariancesSingle data lens pos).getD i 0 =
        (if Spec2Proof.npMax
              ((Spec2Proof.sliceEntries data (pos + (lens.take i).sum)
                (lens.getD i 0)).map fun x => |x|) ≠ 0
         then (0.05 * Spec2Proof.npMax
              ((Spec2Proof.sliceEntries data (pos + (lens.take i).sum)
                (lens.getD i 0)).map fun x => |x|)) ^ 2
         else CalibrationUtilities.initialVariance)
  | [], _, i, hi => by simp at hi
  | l :: ls, pos, 0, _ => by
      simp [CalibrationUtilities.defaultVariancesSingle]
  | l :: ls, pos, i + 1, hi => by
      have ih := defaultVariancesSingle_getD data ls (pos + l) i
        (by simpa using Nat.lt_of_succ_lt_succ hi)
      simp only [CalibrationUtilities.defaultVariancesSingle, List.getD_cons_succ,
        List.take_succ_cons, List.sum_cons] at ih ⊢
      rw [ih, Nat.add_assoc]

/-- **C7**.  `getDefaultErrorVariances`: with 2 or more experiments, entry
`i` is the population variance of EDP `i`'s data slice when nonzero, else
`1e-12`; with at most one experiment, `(0.05 · max |slice|)²` when the
absolute maximum is nonzero, else `1e-12`. -/
theorem C7_default_error_variances (data : List (List ℚ)) (lens : List ℕ)
    (i : ℕ) (hi : i < lens.length) :
    (CalibrationUtilities.getDefaultErrorVariances data lens).getD i 0 =
      if 1 < data.length then
        (if Spec2Proof.popVar
              (Spec2Proof.sliceEntries data ((lens.take i).sum) (lens.getD i 0)) ≠ 0
         then Spec2Proof.popVar
              (Spec2Proof.sliceEntries data ((lens.take i).sum) (lens.getD i 0))
         else CalibrationUtilities.initialVariance)
      else
        (if Spec2Proof.npMax
              ((Spec2Proof.sliceEntries data ((lens.take i).sum)
                (lens.getD i 0)).map fun x => |x|) ≠ 0
         then (0.05 * Spec2Proof.npMax
              ((Spec2Proof.sliceEntries data ((lens.take i).sum)
                (lens.getD i 0)).map fun x => |x|)) ^ 2
         else CalibrationUtilities.initialVariance) := by
  unfold CalibrationUtilities.getDefaultErrorVariances
  split
  · simpa using defaultVariancesMulti_getD data lens 0 i hi
  · simpa using defaultVariancesSingle_getD data lens 0 i hi

/-- Witness for C7: two experiments, EDP lengths `[1, 1]`, second EDP. -/
theorem C7_default_error_variances_witness :
    (CalibrationUtilities.getDefaultErrorVariances [[1, 2], [3, 6]] [1, 1]).getD 1 0 =
      if 1 < ([[1, 2], [3, 6]] : List (List ℚ)).length then
        (if Spec2Proof.popVar
              (Spec2Proof.sliceEntries [[1, 2], [3, 6]] (([1, 1].take 1).sum)
                ([1, 1].getD 1 0)) ≠ 0
         then Spec2Proof.popVar
              (Spec2Proof.sliceEntries [[1, 2], [3, 6]] (([1, 1].take 1).sum)
                ([1, 1].getD 1 0))
         else CalibrationUtilities.initialVariance)
      else
        (if Spec2Proof.npMax
              ((Spec2Proof.sliceEntries [[1, 2], [3, 6]] (([1, 1].take 1).sum)
                ([1, 1].getD 1 0)).map fun x => |x|) ≠ 0
         then (0.05 * Spec2Proof.npMax
              ((Spec2Proof.sliceEntries [[1, 2], [3, 6]] (([1, 1].take 1).sum)
                ([1, 1].getD 1 0)).map fun x => |x|)) ^ 2
         else CalibrationUtilities.initialVariance) :=
  C7_default_error_variances [[1, 2], [3, 6]] [1, 1] 1 (by decide)

/-! ### C8: counterexample and amended theorem -/

/-- **C8, counterexample**.  The claim's "exactly when" clauses conflict
when the EDP length is 1: a 1×1 file with declared length `N = 1` is tagged
`scalar`, yet the claim's diagonal condition "(1 row and N columns) or
(N rows and 1 column)" also holds, so the claimed biconditional for
`diagonal` is false at rows = cols = N = 1. -/
theorem C8_counterexample :
    CalibrationUtilities.classifyCovarianceShape 1 1 1 =
        Except.ok CalibrationUtilities.CovShapeTag.scalar ∧
      ¬(CalibrationUtilities.classifyCovarianceShape 1 1 1 =
          Except.ok CalibrationUtilities.CovShapeTag.diagonal ↔
        ((1 = 1 ∧ 1 = 1) ∨ (1 = 1 ∧ 1 = 1))) := by
  constructor
  · rfl
  · intro hIff
    have h2 := hIff.mpr (Or.inl ⟨rfl, rfl⟩)
    simp [CalibrationUtilities.classifyCovarianceShape] at h2

/-- **C8, amended**.  `createCovarianceMatrix` tags a user covariance file
of declared EDP length `n`: `scalar` exactly when 1×1; `diagonal` exactly
when 1×n with n ≠ 1 or n×1 with n ≠ 1 rows; `matrix` exactly when n×n with
n ≠ 1; and raises `DataProcessingError` for every other shape (the 1×1 file
takes the `scalar` tag even when n = 1). -/
theorem C8_shape_classification (r c n : ℕ) :
    (CalibrationUtilities.classifyCovarianceShape r c n =
        Except.ok CalibrationUtilities.CovShapeTag.scalar ↔ r = 1 ∧ c = 1) ∧
      (CalibrationUtilities.classifyCovarianceShape r c n =
          Except.ok CalibrationUtilities.CovShapeTag.diagonal ↔
        (r = 1 ∧ c = n ∧ c ≠ 1) ∨ (r ≠ 1 ∧ r = n ∧ c = 1)) ∧
      (CalibrationUtilities.classifyCovarianceShape r c n =
          Except.ok CalibrationUtilities.CovShapeTag.matrix ↔
        r ≠ 1 ∧ r = n ∧ c = n) ∧
      (CalibrationUtilities.classifyCovarianceShape r c n =
          Except.error CalibrationUtilities.PyExn.dataProcessingError ↔
        ¬((r = 1 ∧ c = 1) ∨ (r = 1 ∧ c = n ∧ c ≠ 1) ∨
          (r ≠ 1 ∧ r = n ∧ c = 1) ∨ (r ≠ 1 ∧ r = n ∧ c = n))) := by
  unfold CalibrationUtilities.classifyCovarianceShape
  split_ifs with h1 h2 h3 h4 h5 h6 <;>
    refine ⟨?_, ?_, ?_, ?_⟩ <;> (simp_all; try tauto)

/-! ### C9: theorem and witness -/

/-- **C9**.  For every crew report whose maximum index is `172800` seconds,
`averageOverDaysCrewTotalReport` returns exactly two rows, indexed `1` and
`2`, where the row for day `d` is the column-wise mean of the input rows with
index in `[(d-1)·86400, d·86400]`, both endpoints included (the row at index
`86400` contributes to both days). -/
theorem C9_two_day_average (report : List (ℕ × List ℚ))
    (h : ResultTime.maxIndex report = 172800) :
    ResultTime.averageOverDaysCrewTotalReport report =
      [(1, Spec2Proof.colMean (ResultTime.rowsBetween ((1 - 1) * 86400) (1 * 86400) report)),
       (2, Spec2Proof.colMean (ResultTime.rowsBetween ((2 - 1) * 86400) (2 * 86400) report))] := by
  unfold ResultTime.averageOverDaysCrewTotalReport
  rw [h]
  norm_num [ResultTime.ceilDiv, List.range_succ]

/-- Witness for C9 at a concrete three-row report spanning `0..172800`. -/
theorem C9_two_day_average_witness :
    ResultTime.averageOverDaysCrewTotalReport
        [(0, [1]), (86400, [3]), (172800, [5])] =
      [(1, Spec2Proof.colMean (ResultTime.rowsBetween ((1 - 1) * 86400) (1 * 86400)
              [(0, [1]), (86400, [3]), (172800, [5])])),
       (2, Spec2Proof.colMean (ResultTime.rowsBetween ((2 - 1) * 86400) (2 * 86400)
              [(0, [1]), (86400, [3]), (172800, [5])]))] :=
  C9_two_day_average [(0, [1]), (86400, [3]), (172800, [5])] (by decide)

/-! ### C10: theorem -/

/-- **C10**.  `Result_Time()` always raises `TypeError`, because `__init__`
is declared with no parameters while instantiation passes `self` as one
positional argument; an unbound method call supplying every parameter
explicitly binds without error. -/
theorem C10_result_time_never_constructible :
    ResultTime.instantiateResultTime = Except.error ResultTime.PyError.typeError ∧
      ResultTime.unboundConvertCallArgBinding = Except.ok () := by
  exact ⟨rfl, rfl⟩
